import Mathlib

/-!
# MoonGLFW, `src/vulkan.c`: the Vulkan bindings

A shallow embedding of the five Lua-callable functions of `vulkan.c`
(`VulkanSupported`, `GetRequiredInstanceExtensions`,
`GetPhysicalDevicePresentationSupport`, `CreateWindowSurface`, `DestroySurface`)
and of the static function `ResultString`.

* The build flag `VULKAN` is a `Bool` argument of every function that has an
  `#ifdef VULKAN` in its body.
* The Lua stack is a `List LuaValue`, bottom first, so that Lua index `1` is the
  head of the list. A C function that returns `n` hands back the top `n` values.
* A raised Lua error is `Except.error`.
* The native layer (GLFW and the Vulkan loader) is a record of functions that
  may depend on the history of native calls; every native call is appended to
  that history.
* `uint32_t` values are natural numbers reduced modulo `2 ^ 32`.
* Handles (`VkInstance`, `VkPhysicalDevice`, `VkSurfaceKHR`, `GLFWwindow*`,
  `VkAllocationCallbacks*`) are addresses, natural numbers, with `0` for `NULL`.
-/

namespace MoonGLFW

/-! ## Lua values and the stack -/

/-- Lua values as far as the bindings meet them. A float is kept as its bit
pattern, which the bindings never look into; a table is the list of its integer
keyed fields, the most recently stored first. -/
inductive LuaValue where
  | nil
  | boolean (b : Bool)
  | integer (n : Int)
  | number (bits : Nat)
  | string (s : String)
  | lightuserdata (p : Nat)
  | table (fields : List (Int × LuaValue))

/-- Errors a binding can raise: `luaL_error` with its formatted message, or the
argument error of the Lua auxiliary library for the argument at index `arg`. -/
inductive LuaError where
  | error (msg : String)
  | argerror (arg : Nat)
  deriving DecidableEq

/-- The value at a positive stack index, `none` where the index is not
occupied (`LUA_TNONE`). -/
def index (L : List LuaValue) (arg : Nat) : Option LuaValue :=
  if arg = 0 then none else L[arg - 1]?

/-- The values a C function hands back when it returns `n`: the top `n` of its
stack. -/
def results (L : List LuaValue) (n : Nat) : List LuaValue :=
  L.drop (L.length - n)

/-- Function `lua_pushboolean(L, b)`: any non-zero `b` is true. -/
def lua_pushboolean (L : List LuaValue) (b : Int) : List LuaValue :=
  L ++ [LuaValue.boolean (b != 0)]

/-- Function `lua_pushstring(L, s)`. -/
def lua_pushstring (L : List LuaValue) (s : String) : List LuaValue :=
  L ++ [LuaValue.string s]

/-- Function `lua_pushlightuserdata(L, p)`. -/
def lua_pushlightuserdata (L : List LuaValue) (p : Nat) : List LuaValue :=
  L ++ [LuaValue.lightuserdata p]

/-- Function `lua_newtable(L)`: pushes an empty table. -/
def lua_newtable (L : List LuaValue) : List LuaValue :=
  L ++ [LuaValue.table []]

/-- Raw store `t[k] = v` on the fields of a table; storing `nil` erases. -/
def tableSet (fields : List (Int × LuaValue)) (k : Int) (v : LuaValue) :
    List (Int × LuaValue) :=
  let others := fields.filter (fun e => decide (e.1 ≠ k))
  match v with
  | LuaValue.nil => others
  | _ => (k, v) :: others

/-- Raw read `t[k]` on the fields of a table; an absent key reads `nil`. -/
def tableGet (fields : List (Int × LuaValue)) (k : Int) : LuaValue :=
  match fields.find? (fun e => decide (e.1 = k)) with
  | some e => e.2
  | none => LuaValue.nil

/-- Function `lua_rawgeti` on a value: the field `k` of a table, `nil` for
anything that is not a table. -/
def rawgeti (t : LuaValue) (k : Int) : LuaValue :=
  match t with
  | LuaValue.table fields => tableGet fields k
  | _ => LuaValue.nil

/-- Function `lua_rawseti(L, -2, k)`: pops the value on top and stores it at
`t[k]` of the table right below it. The API demands a table at that index; a
stack of any other shape is left as it is. -/
def lua_rawseti_below_top (L : List LuaValue) (k : Int) : List LuaValue :=
  match L.reverse with
  | v :: LuaValue.table fields :: below =>
      below.reverse ++ [LuaValue.table (tableSet fields k v)]
  | _ => L

/-! ## Formatting and raising errors -/

/-- Arguments of a format string. -/
inductive FormatArg where
  | str (s : String)
  | chr (c : Char)
  | int (n : Int)

/-- One conversion of `lua_pushvfstring`: the text that `%` followed by `d`
expands to, and the arguments left. `none` for a conversion that is unknown or
has no argument of the right kind. -/
def conversion (d : Char) (args : List FormatArg) : Option (List Char × List FormatArg) :=
  if d = '%' then some (['%'], args)
  else match d, args with
    | 's', FormatArg.str s :: rest => some (s.data, rest)
    | 'c', FormatArg.chr x :: rest => some ([x], rest)
    | 'd', FormatArg.int n :: rest => some ((toString n).data, rest)
    | _, _ => none

/-- Function `lua_pushvfstring`: copies the format up to each `%` and expands
the conversion that follows it. `none` for a conversion that is unknown,
incomplete, or has no argument of the right kind left. -/
def lua_pushvfstring : List Char → List FormatArg → Option (List Char)
  | [], _ => some []
  | [c], _ => if c = '%' then none else some [c]
  | c :: d :: rest, args =>
    if c = '%' then
      match conversion d args with
      | some (text, args2) => (lua_pushvfstring rest args2).map (fun r => text ++ r)
      | none => none
    else (lua_pushvfstring (d :: rest) args).map (fun r => c :: r)

/-- Function `luaL_error(L, fmt, ...)`: raises an error whose message is the
expansion of `fmt`. The position text `luaL_where` puts in front belongs to the
calling chunk, not to the binding, and is not part of the message here. -/
def luaL_error {α : Type} (fmt : String) (args : List FormatArg) : Except LuaError α :=
  match lua_pushvfstring fmt.data args with
  | some msg => Except.error (LuaError.error (String.mk msg))
  | none => Except.error (LuaError.error "invalid conversion to lua_pushfstring")

/-- Macro `VULKAN_NOT_AVAILABLE`. -/
def VULKAN_NOT_AVAILABLE {α : Type} : Except LuaError α :=
  luaL_error "Vulkan is not available" []

/-! ## `VkResult` and `ResultString` -/

/-- Type `VkResult`, a signed 32 bit enumeration. -/
abbrev VkResult := Int

def VK_SUCCESS : VkResult := 0
def VK_NOT_READY : VkResult := 1
def VK_TIMEOUT : VkResult := 2
def VK_EVENT_SET : VkResult := 3
def VK_EVENT_RESET : VkResult := 4
def VK_INCOMPLETE : VkResult := 5
def VK_ERROR_OUT_OF_HOST_MEMORY : VkResult := -1
def VK_ERROR_OUT_OF_DEVICE_MEMORY : VkResult := -2
def VK_ERROR_INITIALIZATION_FAILED : VkResult := -3
def VK_ERROR_DEVICE_LOST : VkResult := -4
def VK_ERROR_MEMORY_MAP_FAILED : VkResult := -5
def VK_ERROR_LAYER_NOT_PRESENT : VkResult := -6
def VK_ERROR_EXTENSION_NOT_PRESENT : VkResult := -7
def VK_ERROR_FEATURE_NOT_PRESENT : VkResult := -8
def VK_ERROR_INCOMPATIBLE_DRIVER : VkResult := -9
def VK_ERROR_TOO_MANY_OBJECTS : VkResult := -10
def VK_ERROR_FORMAT_NOT_SUPPORTED : VkResult := -11
def VK_ERROR_FRAGMENTED_POOL : VkResult := -12
def VK_ERROR_SURFACE_LOST_KHR : VkResult := -1000000000
def VK_ERROR_NATIVE_WINDOW_IN_USE_KHR : VkResult := -1000000001
def VK_SUBOPTIMAL_KHR : VkResult := 1000001003
def VK_ERROR_OUT_OF_DATE_KHR : VkResult := -1000001004
def VK_ERROR_INCOMPATIBLE_DISPLAY_KHR : VkResult := -1000003001
def VK_ERROR_VALIDATION_FAILED_EXT : VkResult := -1000011001
def VK_ERROR_INVALID_SHADER_NV : VkResult := -1000012000
def VK_ERROR_OUT_OF_POOL_MEMORY_KHR : VkResult := -1000069000

/-- Function `ResultString`: the `switch` of the source, one branch per `case`
in the order of the source, then `default`. -/
def ResultString (rc : VkResult) : String :=
  if rc = VK_SUCCESS then "success"
  else if rc = VK_NOT_READY then "not ready"
  else if rc = VK_TIMEOUT then "timeout"
  else if rc = VK_EVENT_SET then "event set"
  else if rc = VK_EVENT_RESET then "event reset"
  else if rc = VK_INCOMPLETE then "incomplete"
  else if rc = VK_ERROR_OUT_OF_HOST_MEMORY then "out of host memory"
  else if rc = VK_ERROR_OUT_OF_DEVICE_MEMORY then "out of device memory"
  else if rc = VK_ERROR_INITIALIZATION_FAILED then "initialization failed"
  else if rc = VK_ERROR_DEVICE_LOST then "device lost"
  else if rc = VK_ERROR_MEMORY_MAP_FAILED then "memory map failed"
  else if rc = VK_ERROR_LAYER_NOT_PRESENT then "layer not present"
  else if rc = VK_ERROR_EXTENSION_NOT_PRESENT then "extension not present"
  else if rc = VK_ERROR_FEATURE_NOT_PRESENT then "feature not present"
  else if rc = VK_ERROR_INCOMPATIBLE_DRIVER then "incompatible driver"
  else if rc = VK_ERROR_TOO_MANY_OBJECTS then "too many objects"
  else if rc = VK_ERROR_FORMAT_NOT_SUPPORTED then "format not supported"
  else if rc = VK_ERROR_FRAGMENTED_POOL then "fragmented pool"
  else if rc = VK_ERROR_SURFACE_LOST_KHR then "surface lost khr"
  else if rc = VK_ERROR_NATIVE_WINDOW_IN_USE_KHR then "native window in use khr"
  else if rc = VK_SUBOPTIMAL_KHR then "suboptimal khr"
  else if rc = VK_ERROR_OUT_OF_DATE_KHR then "out of date khr"
  else if rc = VK_ERROR_INCOMPATIBLE_DISPLAY_KHR then "incompatible display khr"
  else if rc = VK_ERROR_VALIDATION_FAILED_EXT then "validation failed ext"
  else if rc = VK_ERROR_INVALID_SHADER_NV then "invalid shader nv"
  else if rc = VK_ERROR_OUT_OF_POOL_MEMORY_KHR then "out of pool memory"
  else "unknown vulkan error code"

/-- The status codes that have a `case` in `ResultString`, in source order. -/
def tableCodes : List VkResult :=
  [VK_SUCCESS, VK_NOT_READY, VK_TIMEOUT, VK_EVENT_SET, VK_EVENT_RESET, VK_INCOMPLETE,
   VK_ERROR_OUT_OF_HOST_MEMORY, VK_ERROR_OUT_OF_DEVICE_MEMORY,
   VK_ERROR_INITIALIZATION_FAILED, VK_ERROR_DEVICE_LOST, VK_ERROR_MEMORY_MAP_FAILED,
   VK_ERROR_LAYER_NOT_PRESENT, VK_ERROR_EXTENSION_NOT_PRESENT,
   VK_ERROR_FEATURE_NOT_PRESENT, VK_ERROR_INCOMPATIBLE_DRIVER, VK_ERROR_TOO_MANY_OBJECTS,
   VK_ERROR_FORMAT_NOT_SUPPORTED, VK_ERROR_FRAGMENTED_POOL, VK_ERROR_SURFACE_LOST_KHR,
   VK_ERROR_NATIVE_WINDOW_IN_USE_KHR, VK_SUBOPTIMAL_KHR, VK_ERROR_OUT_OF_DATE_KHR,
   VK_ERROR_INCOMPATIBLE_DISPLAY_KHR, VK_ERROR_VALIDATION_FAILED_EXT,
   VK_ERROR_INVALID_SHADER_NV, VK_ERROR_OUT_OF_POOL_MEMORY_KHR]

/-- Every phrase `ResultString` has: those of the `case`s, then the one of
`default`. -/
def phrases : List String :=
  tableCodes.map ResultString ++ ["unknown vulkan error code"]

/-! ## Helpers of `internal.h` and the native layer -/

/-- Modelled from the spec: `checklightuserdata` is declared in `internal.h` and
defined outside `vulkan.c`. The spec has the bridge perform "no validation beyond
type-checking that a handle/integer was supplied (type errors surface as the
host's standard argument-type failure)", the handle being relayed as it is. -/
def checklightuserdata (L : List LuaValue) (arg : Nat) : Except LuaError Nat :=
  match index L arg with
  | some (LuaValue.lightuserdata p) => Except.ok p
  | _ => Except.error (LuaError.argerror arg)

/-- Modelled from the spec: `optlightuserdata` is declared in `internal.h` and
defined outside `vulkan.c`. The spec has the allocator "optional opaque reference,
passed through unexamined; absent value means use native default allocator", and
omitting it "is equivalent to passing an explicit no allocator value": an
unoccupied index and `nil` both give `NULL`, anything else is checked as a
handle. -/
def optlightuserdata (L : List LuaValue) (arg : Nat) : Except LuaError Nat :=
  match index L arg with
  | none => Except.ok 0
  | some LuaValue.nil => Except.ok 0
  | some _ => checklightuserdata L arg

/-- Type `win_t` of `internal.h`, of which `vulkan.c` reads the field `window`,
the `GLFWwindow*`. -/
structure win_t where
  window : Nat

/-- What `vulkan.c` takes from the rest of the library and from the Lua runtime
without defining it: `checkwindow` (resolves the argument at an index to a
window or raises), and the conversion of a float or a numeric string to an
integer that `luaL_checkinteger` applies to a value that is not an integer. -/
structure Host where
  checkwindow : Option LuaValue → Nat → Except LuaError win_t
  tointeger : LuaValue → Option Int

/-- Macro `checkwindow(L, arg)`: the window the argument at the index stands
for. -/
def checkwindow (H : Host) (L : List LuaValue) (arg : Nat) : Except LuaError win_t :=
  H.checkwindow (index L arg) arg

/-- Function `luaL_checkinteger(L, arg)`: the integer at the index, or the
argument error. -/
def luaL_checkinteger (H : Host) (L : List LuaValue) (arg : Nat) : Except LuaError Int :=
  match index L arg with
  | some (LuaValue.integer n) => Except.ok n
  | some (LuaValue.number bits) =>
      match H.tointeger (LuaValue.number bits) with
      | some n => Except.ok n
      | none => Except.error (LuaError.argerror arg)
  | some (LuaValue.string s) =>
      match H.tointeger (LuaValue.string s) with
      | some n => Except.ok n
      | none => Except.error (LuaError.argerror arg)
  | _ => Except.error (LuaError.argerror arg)

/-- Conversion of a `lua_Integer` to `uint32_t`. -/
def toUInt32 (n : Int) : Nat :=
  (n % 4294967296).toNat

/-- The calls `vulkan.c` makes into GLFW and the Vulkan loader, with the
arguments they receive. -/
inductive NativeCall where
  | glfwVulkanSupported
  | glfwGetRequiredInstanceExtensions
  | glfwGetPhysicalDevicePresentationSupport (vkinstance device queuefamily : Nat)
  | glfwCreateWindowSurface (vkinstance window allocator : Nat)
  | vkDestroySurfaceKHR (vkinstance surface allocator : Nat)
  deriving DecidableEq

/-- The native layer. Every function sees the native calls made before it, so
that its answer may depend on them.
* `glfwGetRequiredInstanceExtensions` gives the returned `const char **` (`none`
  for `NULL`, else the array as a function of the position) and the count it
  writes;
* `glfwCreateWindowSurface` gives the status and the `VkSurfaceKHR` it writes;
* `vkDestroySurfaceKHR` returns nothing and has no field. -/
structure Native where
  glfwVulkanSupported : List NativeCall → Int
  glfwGetRequiredInstanceExtensions : List NativeCall → Option (Nat → String) × Nat
  glfwGetPhysicalDevicePresentationSupport : List NativeCall → Nat → Nat → Nat → Int
  glfwCreateWindowSurface : List NativeCall → Nat → Nat → Nat → VkResult × Nat

/-- What a call of a binding leaves: the values returned or the error raised,
and the native calls made so far. -/
structure Outcome where
  result : Except LuaError (List LuaValue)
  trace : List NativeCall

/-! ## The five bindings -/

/-- Function `VulkanSupported`. -/
def VulkanSupported (VULKAN : Bool) (N : Native) (trace : List NativeCall)
    (L : List LuaValue) : Outcome :=
  if VULKAN then
    let L1 := lua_pushboolean L (N.glfwVulkanSupported trace)
    ⟨Except.ok (results L1 1), trace ++ [NativeCall.glfwVulkanSupported]⟩
  else
    let L1 := lua_pushboolean L 0
    ⟨Except.ok (results L1 1), trace⟩

/-- The `for` loop of `GetRequiredInstanceExtensions`, from the value `i` of the
`uint32_t` counter on: `for(; i < count; i++)` with the body
`lua_pushstring(L, names[i]); lua_rawseti(L, -2, i+1);`. -/
def pushNames (names : Nat → String) (count : Nat) (i : Nat) (L : List LuaValue) :
    List LuaValue :=
  if i < count % 4294967296 then
    pushNames names count ((i + 1) % 4294967296)
      (lua_rawseti_below_top (lua_pushstring L (names i)) (((i + 1) % 4294967296 : Nat) : Int))
  else L
termination_by count % 4294967296 - i
decreasing_by omega

/-- Function `GetRequiredInstanceExtensions`. -/
def GetRequiredInstanceExtensions (VULKAN : Bool) (N : Native) (trace : List NativeCall)
    (L : List LuaValue) : Outcome :=
  if VULKAN then
    let r := N.glfwGetRequiredInstanceExtensions trace
    let trace1 := trace ++ [NativeCall.glfwGetRequiredInstanceExtensions]
    let count := r.2 % 4294967296
    let L1 := lua_newtable L
    match r.1 with
    | none => ⟨Except.ok (results L1 1), trace1⟩
    | some names =>
      if count = 0 then ⟨Except.ok (results L1 1), trace1⟩
      else ⟨Except.ok (results (pushNames names count 0 L1) 1), trace1⟩
  else ⟨VULKAN_NOT_AVAILABLE, trace⟩

/-- The fields of a table in which the first `n` names were stored at the keys
`1` to `n`, key `n` last. -/
def namesFields (names : Nat → String) : Nat → List (Int × LuaValue)
  | 0 => []
  | n + 1 => (((n + 1 : Nat) : Int), LuaValue.string (names n)) :: namesFields names n

/-- Function `GetPhysicalDevicePresentationSupport`. -/
def GetPhysicalDevicePresentationSupport (VULKAN : Bool) (H : Host) (N : Native)
    (trace : List NativeCall) (L : List LuaValue) : Outcome :=
  if VULKAN then
    match checklightuserdata L 1 with
    | Except.error e => ⟨Except.error e, trace⟩
    | Except.ok vkinstance =>
    match checklightuserdata L 2 with
    | Except.error e => ⟨Except.error e, trace⟩
    | Except.ok device =>
    match luaL_checkinteger H L 3 with
    | Except.error e => ⟨Except.error e, trace⟩
    | Except.ok n =>
      let queuefamily := toUInt32 n
      let result := N.glfwGetPhysicalDevicePresentationSupport trace vkinstance device queuefamily
      let L1 := lua_pushboolean L result
      ⟨Except.ok (results L1 1),
        trace ++ [NativeCall.glfwGetPhysicalDevicePresentationSupport vkinstance device queuefamily]⟩
  else ⟨VULKAN_NOT_AVAILABLE, trace⟩

/-- Function `CreateWindowSurface`. -/
def CreateWindowSurface (VULKAN : Bool) (H : Host) (N : Native)
    (trace : List NativeCall) (L : List LuaValue) : Outcome :=
  if VULKAN then
    match checkwindow H L 1 with
    | Except.error e => ⟨Except.error e, trace⟩
    | Except.ok win =>
    match checklightuserdata L 2 with
    | Except.error e => ⟨Except.error e, trace⟩
    | Except.ok vkinstance =>
    match optlightuserdata L 3 with
    | Except.error e => ⟨Except.error e, trace⟩
    | Except.ok allocator =>
      let r := N.glfwCreateWindowSurface trace vkinstance win.window allocator
      let trace1 := trace ++ [NativeCall.glfwCreateWindowSurface vkinstance win.window allocator]
      let ec := r.1
      let surface := r.2
      if ec ≠ VK_SUCCESS then ⟨luaL_error (ResultString ec) [], trace1⟩
      else
        let L1 := lua_pushlightuserdata L surface
        ⟨Except.ok (results L1 1), trace1⟩
  else ⟨VULKAN_NOT_AVAILABLE, trace⟩

/-- Function `DestroySurface`. -/
def DestroySurface (VULKAN : Bool) (trace : List NativeCall) (L : List LuaValue) : Outcome :=
  if VULKAN then
    match checklightuserdata L 1 with
    | Except.error e => ⟨Except.error e, trace⟩
    | Except.ok vkinstance =>
    match checklightuserdata L 2 with
    | Except.error e => ⟨Except.error e, trace⟩
    | Except.ok surface =>
    match optlightuserdata L 3 with
    | Except.error e => ⟨Except.error e, trace⟩
    | Except.ok allocator =>
      ⟨Except.ok (results L 0), trace ++ [NativeCall.vkDestroySurfaceKHR vkinstance surface allocator]⟩
  else ⟨VULKAN_NOT_AVAILABLE, trace⟩

/-- Table `Functions`: the names under which `moonglfw_open_vulkan` registers
the bindings, in the order of the source. -/
def Functions (VULKAN : Bool) (H : Host) (N : Native) :
    List (String × (List NativeCall → List LuaValue → Outcome)) :=
  [("vulkan_supported", VulkanSupported VULKAN N),
   ("get_required_instance_extensions", GetRequiredInstanceExtensions VULKAN N),
   ("get_physical_device_presentation_support",
      GetPhysicalDevicePresentationSupport VULKAN H N),
   ("create_window_surface", CreateWindowSurface VULKAN H N),
   ("destroy_surface", DestroySurface VULKAN)]

/-! ## A host and a native layer to run the bindings on -/

/-- A host in which window `id` is the `GLFWwindow*` at address `1000 + id`. -/
def exampleHost : Host where
  checkwindow := fun v arg =>
    match v with
    | some (LuaValue.integer id) => Except.ok ⟨1000 + id.toNat⟩
    | _ => Except.error (LuaError.argerror arg)
  tointeger := fun _ => none

/-- The surfaces alive after a history of native calls: those created and not
yet destroyed. -/
def liveSurfaces (trace : List NativeCall) : Nat :=
  trace.countP (fun c =>
      match c with
      | NativeCall.glfwCreateWindowSurface _ _ _ => true
      | _ => false)
    - trace.countP (fun c =>
      match c with
      | NativeCall.vkDestroySurfaceKHR _ _ _ => true
      | _ => false)

/-- A native layer with two required extensions, one device whose queue family
`0` alone can present, and surfaces handed out from a pool of slots of 16 bytes
at address 4096, the lowest free slot first. -/
def exampleNative : Native where
  glfwVulkanSupported := fun _ => 1
  glfwGetRequiredInstanceExtensions := fun _ =>
    (some (fun i => if i = 0 then "VK_KHR_surface" else "VK_KHR_xcb_surface"), 2)
  glfwGetPhysicalDevicePresentationSupport := fun _ _ _ queuefamily =>
    if queuefamily = 0 then 1 else 0
  glfwCreateWindowSurface := fun trace _ _ _ => (VK_SUCCESS, 4096 + 16 * liveSurfaces trace)

/-- A native layer like `exampleNative` whose surface creation fails for want of
host memory, and which reports no extension. -/
def failingNative : Native where
  glfwVulkanSupported := fun _ => 1
  glfwGetRequiredInstanceExtensions := fun _ => (none, 0)
  glfwGetPhysicalDevicePresentationSupport := fun _ _ _ _ => 0
  glfwCreateWindowSurface := fun _ _ _ _ => (VK_ERROR_OUT_OF_HOST_MEMORY, 0)

/-! ## Lemmas on the stack and on formatting -/

theorem results_push (L : List LuaValue) (v : LuaValue) : results (L ++ [v]) 1 = [v] := by
  simp [results]

theorem results_zero (L : List LuaValue) : results L 0 = [] := by
  simp [results]

theorem lua_pushvfstring_plain (s : List Char) (args : List FormatArg)
    (h : '%' ∉ s) : lua_pushvfstring s args = some s := by
  induction s with
  | nil => simp [lua_pushvfstring]
  | cons c rest ih =>
    have hc : c ≠ '%' := fun e => h (by simp [e])
    have hr : '%' ∉ rest := fun e => h (by simp [e])
    cases rest with
    | nil => simp [lua_pushvfstring, hc]
    | cons d rest => simp [lua_pushvfstring, hc, ih hr]

theorem luaL_error_plain {α : Type} (fmt : String) (h : '%' ∉ fmt.data) :
    (luaL_error fmt [] : Except LuaError α) = Except.error (LuaError.error fmt) := by
  unfold luaL_error
  rw [lua_pushvfstring_plain fmt.data [] h]

theorem ite_pred {α : Type} (P : α → Prop) (c : Prop) [Decidable c] (a b : α)
    (ha : P a) (hb : P b) : P (if c then a else b) := by
  split <;> assumption

theorem ResultString_mem (rc : VkResult) : ResultString rc ∈ phrases := by
  unfold ResultString
  repeat (refine ite_pred (fun s => s ∈ phrases) _ _ _ (by decide) ?_)
  decide

theorem phrases_no_percent : ∀ s ∈ phrases, '%' ∉ s.data := by
  decide

theorem ResultString_no_percent (rc : VkResult) : '%' ∉ (ResultString rc).data :=
  phrases_no_percent _ (ResultString_mem rc)

theorem VULKAN_NOT_AVAILABLE_eq {α : Type} :
    (VULKAN_NOT_AVAILABLE : Except LuaError α)
      = Except.error (LuaError.error "Vulkan is not available") :=
  luaL_error_plain _ (by decide)

theorem ResultString_nodup : (tableCodes.map ResultString).Nodup := by
  decide

theorem ResultString_default (rc : VkResult) (h : rc ∉ tableCodes) :
    ResultString rc = "unknown vulkan error code" := by
  simp only [tableCodes, List.mem_cons, List.mem_singleton, not_or, List.not_mem_nil,
    not_false_eq_true, and_true] at h
  obtain ⟨h1, h2, h3, h4, h5, h6, h7, h8, h9, h10, h11, h12, h13, h14, h15, h16, h17, h18,
    h19, h20, h21, h22, h23, h24, h25, h26⟩ := h
  unfold ResultString
  rw [if_neg h1, if_neg h2, if_neg h3, if_neg h4, if_neg h5, if_neg h6, if_neg h7, if_neg h8,
    if_neg h9, if_neg h10, if_neg h11, if_neg h12, if_neg h13, if_neg h14, if_neg h15,
    if_neg h16, if_neg h17, if_neg h18, if_neg h19, if_neg h20, if_neg h21, if_neg h22,
    if_neg h23, if_neg h24, if_neg h25, if_neg h26]

/-! ## The loop of `GetRequiredInstanceExtensions` -/

theorem rawseti_push (base : List LuaValue) (fields : List (Int × LuaValue)) (s : String)
    (k : Int) :
    lua_rawseti_below_top (lua_pushstring (base ++ [LuaValue.table fields]) s) k
      = base ++ [LuaValue.table
          ((k, LuaValue.string s) :: fields.filter (fun e => decide (e.1 ≠ k)))] := by
  simp [lua_rawseti_below_top, lua_pushstring, tableSet]

theorem namesFields_keys (names : Nat → String) (n : Nat) :
    ∀ e ∈ namesFields names n, 1 ≤ e.1 ∧ e.1 ≤ (n : Int) := by
  induction n with
  | zero => simp [namesFields]
  | succ n ih =>
    intro e he
    simp only [namesFields, List.mem_cons] at he
    rcases he with rfl | he
    · constructor <;> simp
    · have := ih e he
      constructor
      · exact this.1
      · push_cast; omega

theorem namesFields_filter (names : Nat → String) (n : Nat) :
    (namesFields names n).filter (fun e => decide (e.1 ≠ ((n + 1 : Nat) : Int)))
      = namesFields names n := by
  rw [List.filter_eq_self]
  intro e he
  have := namesFields_keys names n e he
  simp only [decide_eq_true_eq]
  push_cast
  omega

theorem namesFields_length (names : Nat → String) (n : Nat) :
    (namesFields names n).length = n := by
  induction n with
  | zero => rfl
  | succ n ih => simp [namesFields, ih]

theorem tableGet_namesFields_out (names : Nat → String) (n : Nat) (k : Int)
    (h : k < 1 ∨ (n : Int) < k) : tableGet (namesFields names n) k = LuaValue.nil := by
  have hnone : (namesFields names n).find? (fun e => decide (e.1 = k)) = none := by
    rw [List.find?_eq_none]
    intro e he
    have := namesFields_keys names n e he
    simp only [decide_eq_true_eq]
    omega
  simp [tableGet, hnone]

theorem tableGet_namesFields_in (names : Nat → String) (n k : Nat) (h1 : 1 ≤ k) (h2 : k ≤ n) :
    tableGet (namesFields names n) (k : Int) = LuaValue.string (names (k - 1)) := by
  induction n with
  | zero => omega
  | succ n ih =>
    by_cases hk : k = n + 1
    · subst hk
      simp [tableGet, namesFields]
    · have hne : ¬ (((n + 1 : Nat) : Int) = (k : Int)) := by omega
      have := ih (by omega)
      simp only [tableGet, namesFields, List.find?_cons, hne, decide_False] at this ⊢
      exact this

theorem pushNames_fields (names : Nat → String) (count : Nat) (base : List LuaValue) :
    ∀ (d i : Nat), i ≤ count % 4294967296 → count % 4294967296 - i = d →
      pushNames names count i (base ++ [LuaValue.table (namesFields names i)])
        = base ++ [LuaValue.table (namesFields names (count % 4294967296))] := by
  intro d
  induction d with
  | zero =>
    intro i hi hd
    have : i = count % 4294967296 := by omega
    rw [pushNames, if_neg (by omega), this]
  | succ d ih =>
    intro i hi hd
    have hlt : i < count % 4294967296 := by omega
    have hmod : (i + 1) % 4294967296 = i + 1 := by omega
    rw [pushNames, if_pos hlt, hmod, rawseti_push, namesFields_filter]
    exact ih (i + 1) (by omega) (by omega)

/-! ## The build without `VULKAN` -/

/-- Claim C1. In the build without `VULKAN`, whatever the arguments on the stack
and whatever the native layer, `get_required_instance_extensions`,
`get_physical_device_presentation_support`, `create_window_surface` and
`destroy_surface` raise the one error "Vulkan is not available" and make no native
call, and `vulkan_supported` raises nothing, makes no native call and returns the
single value `false`; these are all the functions registered. -/
theorem C1_not_available (H : Host) (N : Native) (trace : List NativeCall)
    (L : List LuaValue) :
    GetRequiredInstanceExtensions false N trace L
        = ⟨Except.error (LuaError.error "Vulkan is not available"), trace⟩
    ∧ GetPhysicalDevicePresentationSupport false H N trace L
        = ⟨Except.error (LuaError.error "Vulkan is not available"), trace⟩
    ∧ CreateWindowSurface false H N trace L
        = ⟨Except.error (LuaError.error "Vulkan is not available"), trace⟩
    ∧ DestroySurface false trace L
        = ⟨Except.error (LuaError.error "Vulkan is not available"), trace⟩
    ∧ VulkanSupported false N trace L = ⟨Except.ok [LuaValue.boolean false], trace⟩
    ∧ (∀ e ∈ Functions false H N,
        (e.1 = "vulkan_supported"
          ∧ e.2 trace L = ⟨Except.ok [LuaValue.boolean false], trace⟩)
        ∨ (e.1 ≠ "vulkan_supported"
          ∧ e.2 trace L
            = ⟨Except.error (LuaError.error "Vulkan is not available"), trace⟩)) := by
  have h1 : GetRequiredInstanceExtensions false N trace L
      = ⟨Except.error (LuaError.error "Vulkan is not available"), trace⟩ := by
    simp only [GetRequiredInstanceExtensions, VULKAN_NOT_AVAILABLE_eq]; rfl
  have h2 : GetPhysicalDevicePresentationSupport false H N trace L
      = ⟨Except.error (LuaError.error "Vulkan is not available"), trace⟩ := by
    simp only [GetPhysicalDevicePresentationSupport, VULKAN_NOT_AVAILABLE_eq]; rfl
  have h3 : CreateWindowSurface false H N trace L
      = ⟨Except.error (LuaError.error "Vulkan is not available"), trace⟩ := by
    simp only [CreateWindowSurface, VULKAN_NOT_AVAILABLE_eq]; rfl
  have h4 : DestroySurface false trace L
      = ⟨Except.error (LuaError.error "Vulkan is not available"), trace⟩ := by
    simp only [DestroySurface, VULKAN_NOT_AVAILABLE_eq]; rfl
  have h5 : VulkanSupported false N trace L
      = ⟨Except.ok [LuaValue.boolean false], trace⟩ := by
    simp only [VulkanSupported, lua_pushboolean, results_push]; rfl
  refine ⟨h1, h2, h3, h4, h5, ?_⟩
  intro e he
  simp only [Functions, List.mem_cons, List.mem_singleton, List.not_mem_nil, or_false] at he
  rcases he with rfl | rfl | rfl | rfl | rfl
  · exact Or.inl ⟨rfl, h5⟩
  · exact Or.inr ⟨(by decide : "get_required_instance_extensions" ≠ "vulkan_supported"), h1⟩
  · exact Or.inr
      ⟨(by decide : "get_physical_device_presentation_support" ≠ "vulkan_supported"), h2⟩
  · exact Or.inr ⟨(by decide : "create_window_surface" ≠ "vulkan_supported"), h3⟩
  · exact Or.inr ⟨(by decide : "destroy_surface" ≠ "vulkan_supported"), h4⟩

/-! ## The build with `VULKAN` -/

/-- What `CreateWindowSurface` does once its three arguments have passed their
checks. -/
theorem CreateWindowSurface_checked (H : Host) (N : Native) (trace : List NativeCall)
    (L : List LuaValue) (win : win_t) (vkinstance allocator : Nat)
    (hw : checkwindow H L 1 = Except.ok win)
    (hi : checklightuserdata L 2 = Except.ok vkinstance)
    (ha : optlightuserdata L 3 = Except.ok allocator) :
    CreateWindowSurface true H N trace L
      = if (N.glfwCreateWindowSurface trace vkinstance win.window allocator).1 ≠ VK_SUCCESS then
          ⟨Except.error (LuaError.error
              (ResultString (N.glfwCreateWindowSurface trace vkinstance win.window allocator).1)),
            trace ++ [NativeCall.glfwCreateWindowSurface vkinstance win.window allocator]⟩
        else
          ⟨Except.ok [LuaValue.lightuserdata
              (N.glfwCreateWindowSurface trace vkinstance win.window allocator).2],
            trace ++ [NativeCall.glfwCreateWindowSurface vkinstance win.window allocator]⟩ := by
  simp only [CreateWindowSurface, if_true, hw, hi, ha, lua_pushlightuserdata, results_push,
    luaL_error_plain _ (ResultString_no_percent _)]

/-- Claim C2. With `VULKAN`, when the native layer returns a name array that is
not `NULL` and a count `n > 0` (a `uint32_t`), `get_required_instance_extensions`
raises nothing and returns one value, a table of exactly `n` fields in which the
key `k`, for `1 ≤ k ≤ n`, holds the native name at position `k - 1`, and every other
integer key is `nil`. -/
theorem C2_names_in_order (N : Native) (trace : List NativeCall) (L : List LuaValue)
    (names : Nat → String) (n : Nat)
    (hn : N.glfwGetRequiredInstanceExtensions trace = (some names, n))
    (hpos : 0 < n) (hlt : n < 4294967296) :
    ∃ fields : List (Int × LuaValue),
      (GetRequiredInstanceExtensions true N trace L).result
          = Except.ok [LuaValue.table fields]
      ∧ fields.length = n
      ∧ (∀ k : Nat, 1 ≤ k → k ≤ n →
          rawgeti (LuaValue.table fields) (k : Int) = LuaValue.string (names (k - 1)))
      ∧ (∀ k : Int, k < 1 ∨ (n : Int) < k → rawgeti (LuaValue.table fields) k = LuaValue.nil) := by
  have hmod : n % 4294967296 = n := Nat.mod_eq_of_lt hlt
  have hne : ¬ n = 0 := by omega
  refine ⟨namesFields names n, ?_, namesFields_length names n, ?_, ?_⟩
  · have hloop := pushNames_fields names n L n 0 (by omega) (by omega)
    rw [hmod] at hloop
    simp only [GetRequiredInstanceExtensions, if_true, hn, hmod, hne, if_false, lua_newtable]
    change Except.ok (results (pushNames names n 0 (L ++ [LuaValue.table (namesFields names 0)])) 1)
      = _
    rw [hloop, results_push]
  · intro k h1 h2
    exact tableGet_namesFields_in names n k h1 h2
  · intro k hk
    exact tableGet_namesFields_out names n k hk

/-- Claim C3. With `VULKAN`, when the native layer returns `NULL` for the name
array or writes a count of zero, `get_required_instance_extensions` raises nothing
and returns one value, a table without any field. -/
theorem C3_empty_table (N : Native) (trace : List NativeCall) (L : List LuaValue)
    (h : (N.glfwGetRequiredInstanceExtensions trace).1 = none
      ∨ (N.glfwGetRequiredInstanceExtensions trace).2 = 0) :
    GetRequiredInstanceExtensions true N trace L
      = ⟨Except.ok [LuaValue.table []],
          trace ++ [NativeCall.glfwGetRequiredInstanceExtensions]⟩ := by
  simp only [GetRequiredInstanceExtensions, if_true, lua_newtable, results_push]
  rcases h with h | h
  · rw [h]
  · rw [h]
    cases (N.glfwGetRequiredInstanceExtensions trace).1 <;> simp

/-- Claim C4. With `VULKAN` and arguments that pass their checks, for every status
`ec` other than `VK_SUCCESS` that the native surface creation returns,
`create_window_surface` raises the error whose message is `ResultString ec`, one of
the fixed phrases; the message is "unknown vulkan error code" for a status without
a `case`, and "out of host memory" for `VK_ERROR_OUT_OF_HOST_MEMORY`. -/
theorem C4_error_message (H : Host) (N : Native) (trace : List NativeCall)
    (L : List LuaValue) (win : win_t) (vkinstance allocator : Nat) (ec : VkResult)
    (surface : Nat)
    (hw : checkwindow H L 1 = Except.ok win)
    (hi : checklightuserdata L 2 = Except.ok vkinstance)
    (ha : optlightuserdata L 3 = Except.ok allocator)
    (hr : N.glfwCreateWindowSurface trace vkinstance win.window allocator = (ec, surface))
    (hec : ec ≠ VK_SUCCESS) :
    (CreateWindowSurface true H N trace L).result
        = Except.error (LuaError.error (ResultString ec))
    ∧ ResultString ec ∈ phrases
    ∧ (ec ∉ tableCodes → (CreateWindowSurface true H N trace L).result
        = Except.error (LuaError.error "unknown vulkan error code"))
    ∧ (ec = VK_ERROR_OUT_OF_HOST_MEMORY → (CreateWindowSurface true H N trace L).result
        = Except.error (LuaError.error "out of host memory")) := by
  have hres : (CreateWindowSurface true H N trace L).result
      = Except.error (LuaError.error (ResultString ec)) := by
    rw [CreateWindowSurface_checked H N trace L win vkinstance allocator hw hi ha, hr]
    simp only [hec, ne_eq, not_false_eq_true, if_true]
  refine ⟨hres, ResultString_mem ec, ?_, ?_⟩
  · intro hnot
    rw [hres, ResultString_default ec hnot]
  · intro heq
    rw [hres, heq]
    rfl

/-- Claim C5. With `VULKAN` and arguments that pass their checks,
`create_window_surface` raises an error exactly when the status the native surface
creation returns differs from `VK_SUCCESS` (so it raises for `VK_SUBOPTIMAL_KHR` and
for `VK_INCOMPLETE`), and on `VK_SUCCESS` it returns one value, the light userdata
of the surface the native call wrote. -/
theorem C5_raises_iff_not_success (H : Host) (N : Native) (trace : List NativeCall)
    (L : List LuaValue) (win : win_t) (vkinstance allocator : Nat) (ec : VkResult)
    (surface : Nat)
    (hw : checkwindow H L 1 = Except.ok win)
    (hi : checklightuserdata L 2 = Except.ok vkinstance)
    (ha : optlightuserdata L 3 = Except.ok allocator)
    (hr : N.glfwCreateWindowSurface trace vkinstance win.window allocator = (ec, surface)) :
    ((∃ e, (CreateWindowSurface true H N trace L).result = Except.error e) ↔ ec ≠ VK_SUCCESS)
    ∧ (ec = VK_SUCCESS → (CreateWindowSurface true H N trace L).result
        = Except.ok [LuaValue.lightuserdata surface])
    ∧ (ec = VK_SUBOPTIMAL_KHR ∨ ec = VK_INCOMPLETE →
        ∃ e, (CreateWindowSurface true H N trace L).result = Except.error e)
    ∧ (CreateWindowSurface true H N trace L).trace
        = trace ++ [NativeCall.glfwCreateWindowSurface vkinstance win.window allocator] := by
  rw [CreateWindowSurface_checked H N trace L win vkinstance allocator hw hi ha, hr]
  by_cases hec : ec = VK_SUCCESS
  · subst hec
    simp
    decide
  · simp [hec]

/-- Claim C10. No phrase `ResultString` can return, the 26 of the `case`s and the
one of `default`, contains a `%`, so that `luaL_error`, given the phrase as its
format with no argument, raises the phrase itself; and two status codes that both
have a `case` and have the same phrase are the same code. -/
theorem C10_phrases (rc : VkResult) :
    '%' ∉ (ResultString rc).data
    ∧ (luaL_error (ResultString rc) [] : Except LuaError (List LuaValue))
        = Except.error (LuaError.error (ResultString rc))
    ∧ tableCodes.length = 26
    ∧ phrases.length = 27
    ∧ (∀ s ∈ phrases, '%' ∉ s.data)
    ∧ (∀ a ∈ tableCodes, ∀ b ∈ tableCodes, ResultString a = ResultString b → a = b) := by
  refine ⟨ResultString_no_percent rc, luaL_error_plain _ (ResultString_no_percent rc),
    rfl, rfl, phrases_no_percent, ?_⟩
  intro a ha b hb hab
  exact List.inj_on_of_nodup_map ResultString_nodup ha hb hab

/-- A `CreateWindowSurface` that returns values passed its checks, had
`VK_SUCCESS` from the native call, and returns the surface that call wrote. -/
theorem CreateWindowSurface_ok (H : Host) (N : Native) (trace : List NativeCall)
    (L : List LuaValue) (v : List LuaValue)
    (h : (CreateWindowSurface true H N trace L).result = Except.ok v) :
    ∃ (win : win_t) (vkinstance allocator : Nat),
      (N.glfwCreateWindowSurface trace vkinstance win.window allocator).1 = VK_SUCCESS
      ∧ v = [LuaValue.lightuserdata
          (N.glfwCreateWindowSurface trace vkinstance win.window allocator).2]
      ∧ (CreateWindowSurface true H N trace L).trace
          = trace ++ [NativeCall.glfwCreateWindowSurface vkinstance win.window allocator] := by
  cases hw : checkwindow H L 1 with
  | error e => simp [CreateWindowSurface, hw] at h
  | ok win =>
    cases hi : checklightuserdata L 2 with
    | error e => simp [CreateWindowSurface, hw, hi] at h
    | ok vkinstance =>
      cases ha : optlightuserdata L 3 with
      | error e => simp [CreateWindowSurface, hw, hi, ha] at h
      | ok allocator =>
        rw [CreateWindowSurface_checked H N trace L win vkinstance allocator hw hi ha] at h ⊢
        refine ⟨win, vkinstance, allocator, ?_⟩
        by_cases hec : (N.glfwCreateWindowSurface trace vkinstance win.window allocator).1
            = VK_SUCCESS
        · simp only [hec, ne_eq, not_true_eq_false, if_false, Except.ok.injEq] at h ⊢
          exact ⟨trivial, h.symm, trivial⟩
        · simp [hec] at h

/-- Claim C6. With `VULKAN`, `create_window_surface` and `destroy_surface` called
with two arguments do exactly what they do when called with the same two
arguments and `nil` as the third: the same values returned or error raised, and
the same native calls. In both cases the allocator read is `NULL`, and with two
arguments that pass their checks the native call made receives `NULL` as its
allocator. -/
theorem C6_omitted_is_nil (H : Host) (N : Native) (trace : List NativeCall)
    (a b : LuaValue) :
    CreateWindowSurface true H N trace [a, b]
        = CreateWindowSurface true H N trace [a, b, LuaValue.nil]
    ∧ DestroySurface true trace [a, b] = DestroySurface true trace [a, b, LuaValue.nil]
    ∧ optlightuserdata [a, b] 3 = Except.ok 0
    ∧ optlightuserdata [a, b, LuaValue.nil] 3 = Except.ok 0
    ∧ (∀ (win : win_t) (p : Nat), H.checkwindow (some a) 1 = Except.ok win →
        b = LuaValue.lightuserdata p →
        (CreateWindowSurface true H N trace [a, b]).trace
          = trace ++ [NativeCall.glfwCreateWindowSurface p win.window 0])
    ∧ (∀ (p q : Nat), a = LuaValue.lightuserdata p → b = LuaValue.lightuserdata q →
        DestroySurface true trace [a, b]
          = ⟨Except.ok [], trace ++ [NativeCall.vkDestroySurfaceKHR p q 0]⟩) := by
  refine ⟨?_, ?_, rfl, rfl, ?_, ?_⟩
  · simp only [CreateWindowSurface, checkwindow, checklightuserdata, optlightuserdata, index,
      lua_pushlightuserdata, results_push]
    rfl
  · simp only [DestroySurface, checklightuserdata, optlightuserdata, index, results_zero]
    rfl
  · intro win p hw hb
    subst hb
    have hw2 : checkwindow H [a, LuaValue.lightuserdata p] 1 = Except.ok win := hw
    rw [CreateWindowSurface_checked H N trace _ win p 0 hw2 rfl rfl]
    split <;> rfl
  · intro p q ha hb
    subst ha hb
    rfl

/-- Claim C7. With `VULKAN`, for every instance handle and surface handle, with
the allocator absent, `nil` or a handle, and after any history of native calls,
`destroy_surface` raises nothing, returns no value, and makes one native call,
`vkDestroySurfaceKHR` with those handles and that allocator; destroying the same
surface a second time does the same once more. -/
theorem C7_destroy_never_raises (trace : List NativeCall) (vkinstance surface allocator : Nat) :
    DestroySurface true trace
        [LuaValue.lightuserdata vkinstance, LuaValue.lightuserdata surface]
      = ⟨Except.ok [], trace ++ [NativeCall.vkDestroySurfaceKHR vkinstance surface 0]⟩
    ∧ DestroySurface true trace
        [LuaValue.lightuserdata vkinstance, LuaValue.lightuserdata surface, LuaValue.nil]
      = ⟨Except.ok [], trace ++ [NativeCall.vkDestroySurfaceKHR vkinstance surface 0]⟩
    ∧ DestroySurface true trace
        [LuaValue.lightuserdata vkinstance, LuaValue.lightuserdata surface,
          LuaValue.lightuserdata allocator]
      = ⟨Except.ok [],
          trace ++ [NativeCall.vkDestroySurfaceKHR vkinstance surface allocator]⟩
    ∧ DestroySurface true
        (DestroySurface true trace
          [LuaValue.lightuserdata vkinstance, LuaValue.lightuserdata surface]).trace
        [LuaValue.lightuserdata vkinstance, LuaValue.lightuserdata surface]
      = ⟨Except.ok [],
          trace ++ [NativeCall.vkDestroySurfaceKHR vkinstance surface 0]
            ++ [NativeCall.vkDestroySurfaceKHR vkinstance surface 0]⟩ :=
  ⟨rfl, rfl, rfl, rfl⟩

theorem toUInt32_of_lt (n : Int) (h0 : 0 ≤ n) (h1 : n < 4294967296) : toUInt32 n = n.toNat := by
  unfold toUInt32
  rw [Int.emod_eq_of_lt h0 h1]

/-- What `GetPhysicalDevicePresentationSupport` does with two handles and any
integer: the queue family the native query receives is the integer reduced
modulo `2 ^ 32`. -/
theorem GetPhysicalDevicePresentationSupport_integer (H : Host) (N : Native)
    (trace : List NativeCall) (vkinstance device : Nat) (n : Int) :
    GetPhysicalDevicePresentationSupport true H N trace
        [LuaValue.lightuserdata vkinstance, LuaValue.lightuserdata device, LuaValue.integer n]
      = ⟨Except.ok [LuaValue.boolean
            (N.glfwGetPhysicalDevicePresentationSupport trace vkinstance device (toUInt32 n)
              != 0)],
          trace ++ [NativeCall.glfwGetPhysicalDevicePresentationSupport vkinstance device
            (toUInt32 n)]⟩ := by
  simp only [GetPhysicalDevicePresentationSupport, if_true, lua_pushboolean, results_push]
  rfl

/-- Claim C8, amended. With `VULKAN`, for every instance handle, device handle and
integer queue family index `n` with `0 ≤ n < 2 ^ 32`,
`get_physical_device_presentation_support` raises nothing, makes one native call,
the query with those two handles and `n` itself, and returns one boolean, true
exactly when the verdict of the query is not zero. -/
theorem C8_presentation_support (H : Host) (N : Native) (trace : List NativeCall)
    (vkinstance device : Nat) (n : Int) (h0 : 0 ≤ n) (h1 : n < 4294967296) :
    GetPhysicalDevicePresentationSupport true H N trace
        [LuaValue.lightuserdata vkinstance, LuaValue.lightuserdata device, LuaValue.integer n]
      = ⟨Except.ok [LuaValue.boolean
            (N.glfwGetPhysicalDevicePresentationSupport trace vkinstance device n.toNat != 0)],
          trace ++ [NativeCall.glfwGetPhysicalDevicePresentationSupport vkinstance device
            n.toNat]⟩ := by
  rw [GetPhysicalDevicePresentationSupport_integer, toUInt32_of_lt n h0 h1]

/-- Claim C8 as stated fails: for the queue family index `2 ^ 32`, a non-negative
Lua integer, the native query receives `0`, not `2 ^ 32`, and the binding returns
`true`, the verdict for queue family `0`, where the verdict for `2 ^ 32` is zero. -/
theorem C8_counterexample :
    GetPhysicalDevicePresentationSupport true exampleHost exampleNative []
        [LuaValue.lightuserdata 7, LuaValue.lightuserdata 9, LuaValue.integer 4294967296]
      = ⟨Except.ok [LuaValue.boolean true],
          [NativeCall.glfwGetPhysicalDevicePresentationSupport 7 9 0]⟩
    ∧ (GetPhysicalDevicePresentationSupport true exampleHost exampleNative []
        [LuaValue.lightuserdata 7, LuaValue.lightuserdata 9,
          LuaValue.integer 4294967296]).trace
      ≠ [NativeCall.glfwGetPhysicalDevicePresentationSupport 7 9 4294967296]
    ∧ exampleNative.glfwGetPhysicalDevicePresentationSupport [] 7 9 4294967296 = 0 := by
  refine ⟨?_, ?_, rfl⟩
  · rw [GetPhysicalDevicePresentationSupport_integer]
    rfl
  · rw [GetPhysicalDevicePresentationSupport_integer]
    decide

/-- Claim C9, amended. With `VULKAN`, every `create_window_surface` that returns
does so after one native surface creation that gave `VK_SUCCESS`, and returns the
one value that is the light userdata of the surface that call wrote; so the
values two such calls return are equal exactly when the native layer wrote the
same surface for both. -/
theorem C9_returns_native_surface (H : Host) (N : Native) (trace1 trace2 : List NativeCall)
    (L1 L2 : List LuaValue) (v1 v2 : List LuaValue)
    (h1 : (CreateWindowSurface true H N trace1 L1).result = Except.ok v1)
    (h2 : (CreateWindowSurface true H N trace2 L2).result = Except.ok v2) :
    ∃ (win1 : win_t) (vkinstance1 allocator1 : Nat) (win2 : win_t)
        (vkinstance2 allocator2 : Nat),
      (CreateWindowSurface true H N trace1 L1).trace
          = trace1 ++ [NativeCall.glfwCreateWindowSurface vkinstance1 win1.window allocator1]
      ∧ (CreateWindowSurface true H N trace2 L2).trace
          = trace2 ++ [NativeCall.glfwCreateWindowSurface vkinstance2 win2.window allocator2]
      ∧ (N.glfwCreateWindowSurface trace1 vkinstance1 win1.window allocator1).1 = VK_SUCCESS
      ∧ (N.glfwCreateWindowSurface trace2 vkinstance2 win2.window allocator2).1 = VK_SUCCESS
      ∧ v1 = [LuaValue.lightuserdata
          (N.glfwCreateWindowSurface trace1 vkinstance1 win1.window allocator1).2]
      ∧ v2 = [LuaValue.lightuserdata
          (N.glfwCreateWindowSurface trace2 vkinstance2 win2.window allocator2).2]
      ∧ (v1 = v2 ↔
          (N.glfwCreateWindowSurface trace1 vkinstance1 win1.window allocator1).2
            = (N.glfwCreateWindowSurface trace2 vkinstance2 win2.window allocator2).2) := by
  obtain ⟨win1, i1, a1, hs1, hv1, ht1⟩ := CreateWindowSurface_ok H N trace1 L1 v1 h1
  obtain ⟨win2, i2, a2, hs2, hv2, ht2⟩ := CreateWindowSurface_ok H N trace2 L2 v2 h2
  refine ⟨win1, i1, a1, win2, i2, a2, ht1, ht2, hs1, hs2, hv1, hv2, ?_⟩
  rw [hv1, hv2]
  constructor
  · intro h
    injection h with h
    injection h
  · intro h
    rw [h]

/-- Claim C9 as stated fails: a surface is created, destroyed, and a second one
created; the native layer hands out the freed slot again, and the second
`create_window_surface` returns the handle the first one returned. -/
theorem C9_counterexample :
    CreateWindowSurface true exampleHost exampleNative []
        [LuaValue.integer 1, LuaValue.lightuserdata 7]
      = ⟨Except.ok [LuaValue.lightuserdata 4096],
          [NativeCall.glfwCreateWindowSurface 7 1001 0]⟩
    ∧ DestroySurface true [NativeCall.glfwCreateWindowSurface 7 1001 0]
        [LuaValue.lightuserdata 7, LuaValue.lightuserdata 4096]
      = ⟨Except.ok [],
          [NativeCall.glfwCreateWindowSurface 7 1001 0,
            NativeCall.vkDestroySurfaceKHR 7 4096 0]⟩
    ∧ CreateWindowSurface true exampleHost exampleNative
        [NativeCall.glfwCreateWindowSurface 7 1001 0, NativeCall.vkDestroySurfaceKHR 7 4096 0]
        [LuaValue.integer 1, LuaValue.lightuserdata 7]
      = ⟨Except.ok [LuaValue.lightuserdata 4096],
          [NativeCall.glfwCreateWindowSurface 7 1001 0, NativeCall.vkDestroySurfaceKHR 7 4096 0,
            NativeCall.glfwCreateWindowSurface 7 1001 0]⟩ :=
  ⟨rfl, rfl, rfl⟩

/-! ## The theorems at concrete inputs -/

/-- Witness of C2: the two extensions of `exampleNative` come back at the keys
`1` and `2`, and nothing else is in the table. -/
theorem C2_names_in_order_witness :
    ∃ fields : List (Int × LuaValue),
      (GetRequiredInstanceExtensions true exampleNative [] []).result
          = Except.ok [LuaValue.table fields]
      ∧ fields.length = 2
      ∧ rawgeti (LuaValue.table fields) 1 = LuaValue.string "VK_KHR_surface"
      ∧ rawgeti (LuaValue.table fields) 2 = LuaValue.string "VK_KHR_xcb_surface"
      ∧ rawgeti (LuaValue.table fields) 3 = LuaValue.nil
      ∧ rawgeti (LuaValue.table fields) 0 = LuaValue.nil := by
  obtain ⟨fields, hres, hlen, hin, hout⟩ :=
    C2_names_in_order exampleNative [] []
      (fun i => if i = 0 then "VK_KHR_surface" else "VK_KHR_xcb_surface") 2 rfl
      (by decide) (by decide)
  exact ⟨fields, hres, hlen, hin 1 (by decide) (by decide), hin 2 (by decide) (by decide),
    hout 3 (by decide), hout 0 (by decide)⟩

/-- Witness of C3: `failingNative` returns `NULL`, and the table is empty. -/
theorem C3_empty_table_witness :
    (failingNative.glfwGetRequiredInstanceExtensions []).2 = 0
    ∧ GetRequiredInstanceExtensions true failingNative [] []
      = ⟨Except.ok [LuaValue.table []], [NativeCall.glfwGetRequiredInstanceExtensions]⟩ :=
  ⟨rfl, C3_empty_table failingNative [] [] (Or.inl rfl)⟩

/-- Witness of C4: surface creation fails for want of host memory. -/
theorem C4_error_message_witness :
    (CreateWindowSurface true exampleHost failingNative []
        [LuaValue.integer 1, LuaValue.lightuserdata 7]).result
      = Except.error (LuaError.error "out of host memory") :=
  (C4_error_message exampleHost failingNative [] [LuaValue.integer 1, LuaValue.lightuserdata 7]
    ⟨1001⟩ 7 0 VK_ERROR_OUT_OF_HOST_MEMORY 0 rfl rfl rfl rfl (by decide)).2.2.2 rfl

/-- Witness of C5: surface creation succeeds and its surface is returned. -/
theorem C5_raises_iff_not_success_witness :
    (CreateWindowSurface true exampleHost exampleNative []
        [LuaValue.integer 1, LuaValue.lightuserdata 7]).result
      = Except.ok [LuaValue.lightuserdata 4096] :=
  (C5_raises_iff_not_success exampleHost exampleNative []
    [LuaValue.integer 1, LuaValue.lightuserdata 7] ⟨1001⟩ 7 0 VK_SUCCESS 4096
    rfl rfl rfl rfl).2.1 rfl

/-- Witness of C6: window `1` and instance `7`, with and without `nil`. -/
theorem C6_omitted_is_nil_witness :
    CreateWindowSurface true exampleHost exampleNative []
        [LuaValue.integer 1, LuaValue.lightuserdata 7]
      = CreateWindowSurface true exampleHost exampleNative []
        [LuaValue.integer 1, LuaValue.lightuserdata 7, LuaValue.nil]
    ∧ (CreateWindowSurface true exampleHost exampleNative []
        [LuaValue.integer 1, LuaValue.lightuserdata 7]).trace
      = [] ++ [NativeCall.glfwCreateWindowSurface 7 1001 0]
    ∧ DestroySurface true [] [LuaValue.lightuserdata 7, LuaValue.lightuserdata 4096]
      = ⟨Except.ok [], [] ++ [NativeCall.vkDestroySurfaceKHR 7 4096 0]⟩ :=
  ⟨(C6_omitted_is_nil exampleHost exampleNative [] (LuaValue.integer 1)
      (LuaValue.lightuserdata 7)).1,
    (C6_omitted_is_nil exampleHost exampleNative [] (LuaValue.integer 1)
      (LuaValue.lightuserdata 7)).2.2.2.2.1 ⟨1001⟩ 7 rfl rfl,
    (C6_omitted_is_nil exampleHost exampleNative [] (LuaValue.lightuserdata 7)
      (LuaValue.lightuserdata 4096)).2.2.2.2.2 7 4096 rfl rfl⟩

/-- Witness of C8: queue family `3` of `exampleNative` cannot present. -/
theorem C8_presentation_support_witness :
    GetPhysicalDevicePresentationSupport true exampleHost exampleNative []
        [LuaValue.lightuserdata 7, LuaValue.lightuserdata 9, LuaValue.integer 3]
      = ⟨Except.ok [LuaValue.boolean false],
          [NativeCall.glfwGetPhysicalDevicePresentationSupport 7 9 3]⟩ :=
  C8_presentation_support exampleHost exampleNative [] 7 9 3 (by decide) (by decide)

/-- Witness of C9: two surfaces created one after the other, none destroyed, are
different because `exampleNative` wrote different surfaces. -/
theorem C9_returns_native_surface_witness :
    ∃ (win1 : win_t) (vkinstance1 allocator1 : Nat) (win2 : win_t)
        (vkinstance2 allocator2 : Nat),
      (CreateWindowSurface true exampleHost exampleNative []
          [LuaValue.integer 1, LuaValue.lightuserdata 7]).trace
          = [] ++ [NativeCall.glfwCreateWindowSurface vkinstance1 win1.window allocator1]
      ∧ (CreateWindowSurface true exampleHost exampleNative
          [NativeCall.glfwCreateWindowSurface 7 1001 0]
          [LuaValue.integer 1, LuaValue.lightuserdata 7]).trace
          = [NativeCall.glfwCreateWindowSurface 7 1001 0]
            ++ [NativeCall.glfwCreateWindowSurface vkinstance2 win2.window allocator2]
      ∧ (exampleNative.glfwCreateWindowSurface [] vkinstance1 win1.window allocator1).1
          = VK_SUCCESS
      ∧ (exampleNative.glfwCreateWindowSurface [NativeCall.glfwCreateWindowSurface 7 1001 0]
          vkinstance2 win2.window allocator2).1 = VK_SUCCESS
      ∧ [LuaValue.lightuserdata 4096] = [LuaValue.lightuserdata
          (exampleNative.glfwCreateWindowSurface [] vkinstance1 win1.window allocator1).2]
      ∧ [LuaValue.lightuserdata 4112] = [LuaValue.lightuserdata
          (exampleNative.glfwCreateWindowSurface [NativeCall.glfwCreateWindowSurface 7 1001 0]
            vkinstance2 win2.window allocator2).2]
      ∧ ([LuaValue.lightuserdata 4096] = [LuaValue.lightuserdata 4112] ↔
          (exampleNative.glfwCreateWindowSurface [] vkinstance1 win1.window allocator1).2
            = (exampleNative.glfwCreateWindowSurface
                [NativeCall.glfwCreateWindowSurface 7 1001 0]
                vkinstance2 win2.window allocator2).2) :=
  C9_returns_native_surface exampleHost exampleNative []
    [NativeCall.glfwCreateWindowSurface 7 1001 0]
    [LuaValue.integer 1, LuaValue.lightuserdata 7]
    [LuaValue.integer 1, LuaValue.lightuserdata 7]
    [LuaValue.lightuserdata 4096] [LuaValue.lightuserdata 4112] rfl rfl

end MoonGLFW
